import Mathlib

/-!
Shallow embedding of the BloxHub Discord bot core (src/bot/discord_bot.py,
src/bot/roblox_api.py, src/bot/storage.py): the identity-linking state
machine, the purchase-intent store, and the reconciliation loop, together
with proofs settling the specification claims.

External HTTP calls made through `requests` are modelled as values of type
`ApiCall` supplied by the environment: a response with a status code and a
body, or an exception (`err`, covering timeouts and network failures, which
the Python code catches with a bare `except`). Database rows are modelled as
maps keyed by their unique columns (`discord_id` for verified users, the
`(discord_id, product_id)` pair for purchases).
-/

namespace BloxHub

/-- Result of one HTTP request: an HTTP response with a status code and a
parsed JSON body, or a raised exception (timeout, connection error, ...). -/
inductive ApiCall (α : Type) where
  | resp (statusCode : Nat) (body : α)
  | err
deriving DecidableEq

/-- ASCII lowercase of a string, modelling Python `str.lower()` on the
ASCII usernames and error messages this code compares. -/
def strLower (s : String) : String :=
  String.mk (s.toList.map Char.toLower)

/-- Whether `needle` occurs as a contiguous sublist of the second list. -/
def listInfix (needle : List Char) : List Char → Bool
  | [] => needle.isEmpty
  | c :: cs => needle.isPrefixOf (c :: cs) || listInfix needle cs

/-- Python `needle in hay` substring test. -/
def containsSub (needle hay : String) : Bool :=
  listInfix needle.toList hay.toList

/-- One entry of the `data` array returned by the Roblox user-search
endpoint; `displayName?` is `none` when the JSON field is absent
(the Python code reads it with `user.get('displayName', user['name'])`). -/
structure RawUser where
  id : Nat
  name : String
  displayName? : Option String
deriving DecidableEq

/-- The user dictionary `get_user_by_username` / `get_user_by_id` build and
return: `{'id': ..., 'name': ..., 'displayName': ...}`. -/
structure RUser where
  id : Nat
  name : String
  displayName : String
deriving DecidableEq

/-- Builds the returned user dictionary from a raw search entry, applying
the `user.get('displayName', user['name'])` default. -/
def toRUser (u : RawUser) : RUser :=
  ⟨u.id, u.name, u.displayName?.getD u.name⟩

/-- Model of `roblox_api.get_user_by_username`: on a 200 response with a non-empty
`data` list, return the first entry whose name matches case-insensitively;
if no entry matches, return the first entry of the list. Any other
response, an empty list, or an exception yields `None`. -/
def get_user_by_username (call : ApiCall (List RawUser)) (username : String) :
    Option RUser :=
  match call with
  | .err => none
  | .resp status data =>
    if status == 200 then
      if !data.isEmpty then
        match data.find? (fun u => strLower u.name == strLower username) with
        | some u => some (toRUser u)
        | none => data.head?.map toRUser
      else none
    else none

/-- One entry of the `errors` array of a Roblox error response. -/
structure ApiError where
  message : String
deriving DecidableEq

/-- The three HTTP calls `is_inventory_public` makes: the collectibles
inventory endpoint, the avatar endpoint, and the gamepass inventory
endpoint (bodies: error lists for the first two, unit for the third). -/
structure InventoryEnv where
  inventoryCall : ApiCall (List ApiError)
  avatarCall : ApiCall (List ApiError)
  gamepassCall : ApiCall Unit
deriving DecidableEq

/-- Model of `roblox_api.is_inventory_public`: returns `False` on a 403 whose first
error message mentions the inventory or profile being unavailable, on any
exception, and otherwise reports whether the gamepass inventory endpoint
answered 200. -/
def is_inventory_public (env : InventoryEnv) : Bool :=
  match env.inventoryCall with
  | .err => false
  | .resp st1 errs1 =>
    if st1 == 403 &&
        (match errs1.head? with
         | some e => containsSub "inventory not available" (strLower e.message)
         | none => false) then
      false
    else
      match env.avatarCall with
      | .err => false
      | .resp st2 errs2 =>
        if st2 == 403 &&
            (match errs2.head? with
             | some e => containsSub "not available" (strLower e.message)
             | none => false) then
          false
        else
          match env.gamepassCall with
          | .err => false
          | .resp st3 _ => st3 == 200

/-- The two HTTP calls `user_owns_gamepass` can make: the per-item
ownership endpoint (body: the `data` list of owned item records) and the
fallback gamepass inventory endpoint (body: the owned gamepass ids). -/
structure OwnershipEnv where
  ownershipCall : ApiCall (List String)
  inventoryCall : ApiCall (List String)
deriving DecidableEq

/-- Model of `roblox_api.user_owns_gamepass`: 200 on the ownership endpoint means
owned iff the `data` list is non-empty; 403 means `False` (private
inventory); any other status falls back to scanning the gamepass inventory
endpoint; every exception path returns `False`. -/
def user_owns_gamepass (env : OwnershipEnv) (gamepass_id : String) : Bool :=
  match env.ownershipCall with
  | .err => false
  | .resp status body =>
    if status == 200 then !body.isEmpty
    else if status == 403 then false
    else
      match env.inventoryCall with
      | .err => false
      | .resp st2 body2 =>
        if st2 == 200 then body2.any (fun itemId => itemId == gamepass_id)
        else false

/-- Model of `roblox_api.check_profile_for_code`: on a 200 response, test whether
the code occurs in the profile description; otherwise `False`. -/
def check_profile_for_code (call : ApiCall String) (code : String) : Bool :=
  match call with
  | .err => false
  | .resp status description =>
    if status == 200 then containsSub code description else false

/-- Longest run of leading decimal digits of a character list. -/
def digitRun : List Char → List Char
  | [] => []
  | c :: cs => if c.isDigit then c :: digitRun cs else []

/-- Leftmost occurrence of `marker` that is immediately followed by at
least one digit; returns that digit run. Models a `re.search` for
`marker(\d+)`. -/
def firstMarkerDigits (marker : List Char) : List Char → Option (List Char)
  | [] => none
  | c :: cs =>
    if marker.isPrefixOf (c :: cs) then
      match digitRun ((c :: cs).drop marker.length) with
      | [] => firstMarkerDigits marker cs
      | ds => some ds
    else firstMarkerDigits marker cs

/-- Digits after the last `?id=` or `&id=` occurrence in the list (the
greedy `.​*[?&]id=(\d+)` group). -/
def lastIdDigits : List Char → Option (List Char)
  | [] => none
  | c :: cs =>
    match lastIdDigits cs with
    | some ds => some ds
    | none =>
      if (c == '?' || c == '&') && ("id=".toList.isPrefixOf cs) then
        match digitRun (cs.drop 3) with
        | [] => none
        | ds => some ds
      else none

/-- Remainder of the list after the leftmost occurrence of `marker`. -/
def firstMarkerRest (marker : List Char) : List Char → Option (List Char)
  | [] => none
  | c :: cs =>
    if marker.isPrefixOf (c :: cs) then some ((c :: cs).drop marker.length)
    else firstMarkerRest marker cs

/-- Model of `roblox_api.extract_gamepass_id`: try the four URL regex patterns in
order (`game-pass/(\d+)`, `game-pass/.​*[?&]id=(\d+)`, `catalog/(\d+)`,
`catalog/.​*[?&]id=(\d+)`), then accept a bare all-digit string;
otherwise `None`. -/
def extract_gamepass_id (gamepass_url : String) : Option String :=
  if gamepass_url = "" then none
  else
    let s := gamepass_url.toList
    match firstMarkerDigits "roblox.com/game-pass/".toList s with
    | some ds => some (String.mk ds)
    | none =>
      match (firstMarkerRest "roblox.com/game-pass/".toList s).bind lastIdDigits with
      | some ds => some (String.mk ds)
      | none =>
        match firstMarkerDigits "roblox.com/catalog/".toList s with
        | some ds => some (String.mk ds)
        | none =>
          match (firstMarkerRest "roblox.com/catalog/".toList s).bind lastIdDigits with
          | some ds => some (String.mk ds)
          | none =>
            if s.all (fun c => c.isDigit) then some gamepass_url else none

/-! ## Data model (src/bot/storage.py) -/

/-- One row of the `verified_users` table (unique on `discord_id`); this is
the spec's `LinkedAccount` record, with `verified = true` standing for the
`Linked` state, an existing row with `verified = false` for
`PendingConfirmation`, and no row for `Unlinked`. -/
structure VRec where
  discordId : String
  robloxUsername : String
  robloxId : String
  verificationCode : String
  verified : Bool
  verifiedAt : Option Nat
deriving DecidableEq

/-- The `verified_users` table, keyed by its unique `discord_id` column. -/
abbrev Registry := String → Option VRec

/-- Writing one verified-user row (by its unique `discord_id`). -/
def regSet (reg : Registry) (discordId : String) (r : VRec) : Registry :=
  fun d => if d = discordId then some r else reg d

/-- A partial-update dictionary for `Storage.update_verified_user`: `none`
means the key is absent from the dictionary and the column is untouched. -/
structure VUpdate where
  robloxUsername : Option String := none
  robloxId : Option String := none
  verificationCode : Option String := none
  verified : Option Bool := none
  verifiedAt : Option (Option Nat) := none

/-- Model of `Storage.update_verified_user`: apply exactly the fields present in the
update dictionary, leaving the rest of the row unchanged. -/
def update_verified_user_fields (r : VRec) (u : VUpdate) : VRec :=
  { r with
    robloxUsername := u.robloxUsername.getD r.robloxUsername
    robloxId := u.robloxId.getD r.robloxId
    verificationCode := u.verificationCode.getD r.verificationCode
    verified := u.verified.getD r.verified
    verifiedAt := u.verifiedAt.getD r.verifiedAt }

/-- One row of the `products` table (the spec's `EntitlementDefinition`;
`name` and `gamepass_id` carry unique indexes). -/
structure Product where
  id : Nat
  name : String
  description : String
  price : Nat
  gamepassId : String
  botInviteLink : String
deriving DecidableEq

/-- Model of `Storage.get_product_by_name`. -/
def get_product_by_name (catalog : List Product) (n : String) : Option Product :=
  catalog.find? (fun p => p.name == n)

/-- Model of `Storage.get_product_by_gamepass_id`. -/
def get_product_by_gamepass_id (catalog : List Product) (g : String) : Option Product :=
  catalog.find? (fun p => p.gamepassId == g)

/-- Model of `Storage.get_product`. -/
def get_product (catalog : List Product) (i : Nat) : Option Product :=
  catalog.find? (fun p => p.id == i)

/-- The purchase status column (`'pending' | 'completed' | 'failed'`). -/
inductive PStatus where
  | pending
  | completed
  | failed
deriving DecidableEq

/-- One row of the `purchases` table (the spec's `PurchaseIntent`). -/
structure PRec where
  discordId : String
  robloxId : String
  productId : Nat
  status : PStatus
  purchasedAt : Option Nat
deriving DecidableEq

/-- The `purchases` table, keyed by the `(discord_id, product_id)`
composite pair the handlers look rows up by. -/
abbrev PStore := String → Nat → Option PRec

/-- Writing one purchase row at its `(discord_id, product_id)` key. -/
def psSet (ps : PStore) (d : String) (pid : Nat) (r : PRec) : PStore :=
  fun d' pid' => if d' = d ∧ pid' = pid then some r else ps d' pid'

/-- A partial-update dictionary for `Storage.update_purchase`: the method
only ever touches `status` and `purchased_at`, and only when the key is
present in the dictionary. -/
structure PUpdate where
  status : Option PStatus := none
  purchasedAt : Option (Option Nat) := none

/-- Model of `Storage.update_purchase`: apply exactly the fields present in the
update dictionary, unconditionally — the row's prior status is not
examined (no compare-and-set). -/
def update_purchase_fields (p : PRec) (u : PUpdate) : PRec :=
  { p with
    status := u.status.getD p.status
    purchasedAt := u.purchasedAt.getD p.purchasedAt }

/-! ## Command results (discord_bot.CommandResult) -/

/-- The machine-readable `data` map of a command result; `none` marks keys
absent from the Python dictionary. -/
structure ResultData where
  code : Option String := none
  product : Option Product := none
  gamepassLink : Option String := none
  robloxUsername : Option String := none
  robloxId : Option Nat := none
deriving DecidableEq

/-- Model of `discord_bot.CommandResult`. -/
structure CommandResult where
  success : Bool
  message : String
  data : ResultData
deriving DecidableEq

def msgAlreadyVerified : String :=
  "You are already verified. Use /reverify if you want to verify with a different account."

def msgVerifyOk : String :=
  "Please add this code to your Roblox profile \"About Me\" section and then confirm verification. Note: Make sure your Roblox inventory is set to public for verification to work properly."

def msgNotStarted : String :=
  "You have not started the verification process. Please use /verify first."

def msgUserNotFound (u : String) : String :=
  "Could not find a Roblox user with the username \"" ++ u ++ "\". Please check the spelling and try again."

def msgInvPrivate : String :=
  "Your Roblox inventory is currently private. Please make it public for verification and purchases to work properly. Once public, try verifying again."

def msgCodeNotFound (code : String) : String :=
  "Verification code not found in your Roblox profile. Please make sure you\x27ve added the code \"" ++ code ++ "\" to your About Me section and try again."

def msgConfirmOk (name : String) : String :=
  "Successfully verified! Your Discord account is now linked to Roblox user " ++ name ++ "."

def msgNeedVerify : String :=
  "You need to verify your Roblox account first. Use /verify to get started."

def msgProductNotFound (p : String) : String :=
  "Product \"" ++ p ++ "\" not found. Please check the spelling or contact an administrator."

def msgAlreadyOwnProduct : String :=
  "You already own this product. Enjoy!"

def msgAlreadyOwnGamepass : String :=
  "You already own this gamepass. Your purchase has been processed successfully."

def msgBuyPending (name : String) : String :=
  "Please click the purchase link below to buy the gamepass for " ++ name ++ ". Once purchased, your purchase will be automatically detected and processed."

def msgInvalidLink : String :=
  "Invalid gamepass link. Please provide a valid Roblox gamepass link."

def msgMismatch (p : String) : String :=
  "The provided gamepass link does not match the gamepass for product \"" ++ p ++ "\"."

def msgNoProductForGamepass : String :=
  "No product found for this gamepass. Please contact an administrator."

def msgNotOwned : String :=
  "You do not own this gamepass. Please purchase it before attempting to redeem."

def msgAlreadyRedeemed : String :=
  "You have already redeemed this product. Enjoy!"

def msgRedeemOk (name : String) : String :=
  "Successfully redeemed " ++ name ++ "! Thank you for your purchase."

/-! ## Identity-linking handlers (src/bot/discord_bot.py) -/

/-- The restricted character set of `generate_verification_code`. -/
def verificationAlphabet : List Char :=
  "0123456789ABCDEFGHIJKLMNOPQRSTUVWXYZ".toList

/-- Model of `discord_bot.generate_verification_code`, parametrised by the four
`random.choice` draws: the fixed head `DISC-VFY-` followed by four
characters from `verificationAlphabet`. -/
def generate_verification_code (pick : Fin 4 → Fin 36) : String :=
  "DISC-VFY-" ++
    String.mk ((List.finRange 4).map
      (fun i => verificationAlphabet.get (Fin.cast (by decide) (pick i))))

/-- Model of `discord_bot.handle_verify` (the spec's `beginLink`), parametrised by
the freshly generated verification code: fail if the account is already
verified; otherwise store the new code with `verified = False` (updating
the existing row or creating one with empty Roblox identity) and return
the code. -/
def handle_verify (code : String) (reg : Registry) (userId : String) :
    CommandResult × Registry :=
  match reg userId with
  | some existing =>
    if existing.verified then
      (⟨false, msgAlreadyVerified, {}⟩, reg)
    else
      (⟨true, msgVerifyOk, { code := some code }⟩,
       regSet reg userId
         (update_verified_user_fields existing
           { verificationCode := some code, verified := some false,
             verifiedAt := some none }))
  | none =>
    (⟨true, msgVerifyOk, { code := some code }⟩,
     regSet reg userId ⟨userId, "", "", code, false, none⟩)

/-- The oracle responses one `confirm_verification` call consumes, plus the
`datetime.now()` timestamp it stamps. -/
structure ConfirmEnv where
  searchCall : ApiCall (List RawUser)
  inv : InventoryEnv
  profileCall : ApiCall String
  now : Nat
deriving DecidableEq

/-- Model of `discord_bot.confirm_verification` (the spec's `confirmLink`): require
an existing row, resolve the claimed username, require a public inventory
and the stored code in the profile, then store the resolved Roblox
identity with `verified = True`. -/
def confirm_verification (env : ConfirmEnv) (reg : Registry)
    (userId roblox_username : String) : CommandResult × Registry :=
  match reg userId with
  | none => (⟨false, msgNotStarted, {}⟩, reg)
  | some verification =>
    match get_user_by_username env.searchCall roblox_username with
    | none => (⟨false, msgUserNotFound roblox_username, {}⟩, reg)
    | some roblox_user =>
      if !is_inventory_public env.inv then
        (⟨false, msgInvPrivate, {}⟩, reg)
      else if !check_profile_for_code env.profileCall verification.verificationCode then
        (⟨false, msgCodeNotFound verification.verificationCode, {}⟩, reg)
      else
        (⟨true, msgConfirmOk roblox_user.name,
          { robloxUsername := some roblox_user.name, robloxId := some roblox_user.id }⟩,
         regSet reg userId
           (update_verified_user_fields verification
             { robloxUsername := some roblox_user.name,
               robloxId := some (Nat.repr roblox_user.id),
               verified := some true, verifiedAt := some (some env.now) }))

/-- Model of `discord_bot.handle_reverify` (the spec's `reverify`): with no existing
row, delegate to `handle_verify`; otherwise store a fresh code, clear the
Roblox identity and force `verified = False`. -/
def handle_reverify (code : String) (reg : Registry) (userId : String) :
    CommandResult × Registry :=
  match reg userId with
  | none => handle_verify code reg userId
  | some verification =>
    (⟨true, msgVerifyOk, { code := some code }⟩,
     regSet reg userId
       (update_verified_user_fields verification
         { verificationCode := some code, verified := some false,
           verifiedAt := some none, robloxUsername := some "",
           robloxId := some "" }))

/-! ## Purchase handlers and the reconciliation loop -/

/-- The environment one `handle_buy` / `handle_redeem` call consumes: the
product catalog, the oracle responses for its single
`user_owns_gamepass` check, and the `datetime.now()` timestamp. -/
structure BuyEnv where
  catalog : List Product
  oracle : OwnershipEnv
  now : Nat
deriving DecidableEq

/-- Model of `discord_bot.handle_buy` (the spec's `requestPurchase`): require a
verified account and a known product, query ownership; if owned, create or
complete the intent (an already-completed intent is returned untouched);
if not owned, create the intent as pending, or reset a non-completed
intent to pending, and return the constructed gamepass purchase link. -/
def handle_buy (env : BuyEnv) (reg : Registry) (ps : PStore)
    (userId product_name : String) : CommandResult × PStore :=
  match reg userId with
  | none => (⟨false, msgNeedVerify, {}⟩, ps)
  | some verification =>
    if !verification.verified then (⟨false, msgNeedVerify, {}⟩, ps)
    else
      match get_product_by_name env.catalog product_name with
      | none => (⟨false, msgProductNotFound product_name, {}⟩, ps)
      | some product =>
        if user_owns_gamepass env.oracle product.gamepassId then
          match ps userId product.id with
          | some existing_purchase =>
            if existing_purchase.status = PStatus.completed then
              (⟨true, msgAlreadyOwnProduct, { product := some product }⟩, ps)
            else
              (⟨true, msgAlreadyOwnGamepass, { product := some product }⟩,
               psSet ps userId product.id
                 (update_purchase_fields existing_purchase
                   { status := some PStatus.completed,
                     purchasedAt := some (some env.now) }))
          | none =>
            (⟨true, msgAlreadyOwnGamepass, { product := some product }⟩,
             psSet ps userId product.id
               ⟨userId, verification.robloxId, product.id, PStatus.completed,
                some env.now⟩)
        else
          let ps' :=
            match ps userId product.id with
            | none =>
              psSet ps userId product.id
                ⟨userId, verification.robloxId, product.id, PStatus.pending, none⟩
            | some existing_purchase =>
              if existing_purchase.status ≠ PStatus.completed then
                psSet ps userId product.id
                  (update_purchase_fields existing_purchase
                    { status := some PStatus.pending })
              else ps
          (⟨true, msgBuyPending product.name,
            { product := some product,
              gamepassLink := some ("https://www.roblox.com/game-pass/" ++ product.gamepassId) }⟩,
           ps')

/-- Model of `discord_bot.handle_redeem` (the spec's `redeem`): require a verified
account, parse the gamepass link, resolve the product by name (checking
the link against it) or by gamepass id, require ownership; an
already-completed intent short-circuits to success, otherwise the intent
is created or updated directly to completed. -/
def handle_redeem (env : BuyEnv) (reg : Registry) (ps : PStore)
    (userId product_name gamepass_link : String) : CommandResult × PStore :=
  match reg userId with
  | none => (⟨false, msgNeedVerify, {}⟩, ps)
  | some verification =>
    if !verification.verified then (⟨false, msgNeedVerify, {}⟩, ps)
    else
      match extract_gamepass_id gamepass_link with
      | none => (⟨false, msgInvalidLink, {}⟩, ps)
      | some gamepass_id =>
        let productRes : CommandResult ⊕ Product :=
          if product_name ≠ "" then
            match get_product_by_name env.catalog product_name with
            | none => Sum.inl ⟨false, msgProductNotFound product_name, {}⟩
            | some product =>
              if product.gamepassId ≠ gamepass_id then
                Sum.inl ⟨false, msgMismatch product_name, {}⟩
              else Sum.inr product
          else
            match get_product_by_gamepass_id env.catalog gamepass_id with
            | none => Sum.inl ⟨false, msgNoProductForGamepass, {}⟩
            | some product => Sum.inr product
        match productRes with
        | Sum.inl r => (r, ps)
        | Sum.inr product =>
          if !user_owns_gamepass env.oracle gamepass_id then
            (⟨false, msgNotOwned, {}⟩, ps)
          else
            match ps userId product.id with
            | some existing_purchase =>
              if existing_purchase.status = PStatus.completed then
                (⟨true, msgAlreadyRedeemed, { product := some product }⟩, ps)
              else
                (⟨true, msgRedeemOk product.name, { product := some product }⟩,
                 psSet ps userId product.id
                   (update_purchase_fields existing_purchase
                     { status := some PStatus.completed,
                       purchasedAt := some (some env.now) }))
            | none =>
              (⟨true, msgRedeemOk product.name, { product := some product }⟩,
               psSet ps userId product.id
                 ⟨userId, verification.robloxId, product.id, PStatus.completed,
                  some env.now⟩)

/-- One tick of `discord_bot.check_pending_purchases`, stated pointwise on
the store (the loop snapshots the pending rows and updates each one
independently): a pending intent whose product is missing becomes failed;
a pending intent whose owner is reported as owning the gamepass becomes
completed with `purchasedAt` stamped; every other row is untouched.
`orc` supplies the oracle responses of the `user_owns_gamepass` call for
a given `(roblox_id, gamepass_id)` pair. -/
def purchaseTick (catalog : List Product)
    (orc : String → String → OwnershipEnv) (now : Nat) (ps : PStore) : PStore :=
  fun d pid =>
    match ps d pid with
    | none => none
    | some purchase =>
      if purchase.status = PStatus.pending then
        match get_product catalog purchase.productId with
        | none =>
          some (update_purchase_fields purchase { status := some PStatus.failed })
        | some product =>
          if user_owns_gamepass (orc purchase.robloxId product.gamepassId)
              product.gamepassId then
            some (update_purchase_fields purchase
              { status := some PStatus.completed, purchasedAt := some (some now) })
          else some purchase
      else some purchase

/-- Whether one tick of `check_pending_purchases` reaches the Grant
Notifier block (the `Bot Buyer` role assignment) for the row at the given
key: it does exactly when that row is pending, its product exists, and the
oracle reports the gamepass as owned. -/
def tickGrantFor (catalog : List Product)
    (orc : String → String → OwnershipEnv) (ps : PStore)
    (d : String) (pid : Nat) : Nat :=
  match ps d pid with
  | none => 0
  | some purchase =>
    if purchase.status = PStatus.pending then
      match get_product catalog purchase.productId with
      | none => 0
      | some product =>
        if user_owns_gamepass (orc purchase.robloxId product.gamepassId)
            product.gamepassId then 1
        else 0
    else 0

/-- One invocation of an actor racing on the purchase store: a `redeem`
call (with its arguments) or a reconciliation tick. -/
inductive RaceStep where
  | redeemStep
  | tickStep

/-- Runs a schedule of `redeem` calls and reconciliation ticks over the
purchase store, counting the Grant Notifier invocations for the intent at
key `(d, pid)`. `handle_redeem` contributes no grants because its source
contains no role-assignment or notification call; a tick contributes
`tickGrantFor` at the key. -/
def runRace (env : BuyEnv) (orc : String → String → OwnershipEnv)
    (reg : Registry) (userId product_name gamepass_link : String)
    (d : String) (pid : Nat) : List RaceStep → PStore → PStore × Nat
  | [], ps => (ps, 0)
  | RaceStep.redeemStep :: rest, ps =>
    runRace env orc reg userId product_name gamepass_link d pid rest
      (handle_redeem env reg ps userId product_name gamepass_link).2
  | RaceStep.tickStep :: rest, ps =>
    let g := tickGrantFor env.catalog orc ps d pid
    let next := runRace env orc reg userId product_name gamepass_link d pid rest
      (purchaseTick env.catalog orc env.now ps)
    (next.1, next.2 + g)

/-! ## Operation sequences and invariants -/

/-- One invocation of an operation that can touch the purchase store: a
`/buy` command, a `/redeem` command, or one reconciliation tick, each with
the environment and registry it observes. -/
inductive PurchaseOp where
  | buyOp (env : BuyEnv) (reg : Registry) (userId product_name : String)
  | redeemOp (env : BuyEnv) (reg : Registry)
      (userId product_name gamepass_link : String)
  | tickOp (catalog : List Product) (orc : String → String → OwnershipEnv)
      (now : Nat)

/-- The purchase-store effect of one operation. -/
def applyPurchaseOp (ps : PStore) : PurchaseOp → PStore
  | .buyOp env reg userId pn => (handle_buy env reg ps userId pn).2
  | .redeemOp env reg userId pn link => (handle_redeem env reg ps userId pn link).2
  | .tickOp catalog orc now => purchaseTick catalog orc now ps

/-- The purchase-store effect of a sequence of operations. -/
def applyPurchaseOps (ps : PStore) (ops : List PurchaseOp) : PStore :=
  ops.foldl applyPurchaseOp ps

/-- One invocation of an identity-linking operation. -/
inductive LinkOp where
  | verifyOp (code userId : String)
  | confirmOp (env : ConfirmEnv) (userId claim : String)
  | reverifyOp (code userId : String)

/-- The registry effect of one linking operation. -/
def applyLinkOp (reg : Registry) : LinkOp → Registry
  | .verifyOp code userId => (handle_verify code reg userId).2
  | .confirmOp env userId claim => (confirm_verification env reg userId claim).2
  | .reverifyOp code userId => (handle_reverify code reg userId).2

/-- The registry reached by a sequence of linking operations from the
empty registry. -/
def runLinkOps (ops : List LinkOp) : Registry :=
  ops.foldl applyLinkOp (fun _ => none)

/-- All usernames in a search response are non-empty (Roblox usernames
are never the empty string). -/
def searchNamesNonempty : ApiCall (List RawUser) → Prop
  | .err => True
  | .resp _ data => ∀ u ∈ data, u.name ≠ ""

/-- Well-formedness of the oracle data a linking operation observes. -/
def linkOpOk : LinkOp → Prop
  | .confirmOp env _ _ => searchNamesNonempty env.searchCall
  | _ => True

/-- The spec's LinkedAccount invariant: a row's Roblox id and username are
non-empty exactly when the row is verified (`Linked`). -/
def linkInv (reg : Registry) : Prop :=
  ∀ u r, reg u = some r →
    (r.robloxId ≠ "" ↔ r.verified = true) ∧
    (r.robloxUsername ≠ "" ↔ r.verified = true)

/-! ## Concrete fixtures -/

/-- A catalog product backed by gamepass `9001`. -/
def product0 : Product := ⟨1, "Gold", "Gamepass for Gold", 500, "9001", ""⟩

/-- A verified (`Linked`) account row. -/
def vLinked : VRec := ⟨"u1", "RobloxGuy", "100", "DISC-VFY-AAAA", true, some 0⟩

/-- A registry holding only the verified account `u1`. -/
def reg0 : Registry := regSet (fun _ => none) "u1" vLinked

/-- Ownership oracle responses reporting the gamepass as not owned. -/
def oracleNotOwned : OwnershipEnv := ⟨.resp 200 [], .resp 200 []⟩

/-- Ownership oracle responses reporting the gamepass as owned. -/
def oracleOwned : OwnershipEnv := ⟨.resp 200 ["9001"], .resp 200 []⟩

/-- Ownership oracle responses for a call that raises (timeout / error). -/
def oracleErr : OwnershipEnv := ⟨.err, .err⟩

def envNotOwned : BuyEnv := ⟨[product0], oracleNotOwned, 5⟩

def envOwned : BuyEnv := ⟨[product0], oracleOwned, 5⟩

/-- The empty purchase store. -/
def psEmpty : PStore := fun _ _ => none

def pPending : PRec := ⟨"u1", "100", 1, PStatus.pending, none⟩

def pCompleted : PRec := ⟨"u1", "100", 1, PStatus.completed, some 3⟩

def pFailed : PRec := ⟨"u1", "100", 1, PStatus.failed, none⟩

def psPending : PStore := psSet psEmpty "u1" 1 pPending

def psCompleted : PStore := psSet psEmpty "u1" 1 pCompleted

def psFailed : PStore := psSet psEmpty "u1" 1 pFailed

/-- A concrete confirmation environment whose search resolves `Alice`. -/
def cenv0 : ConfirmEnv :=
  ⟨ApiCall.resp 200 [⟨7, "Alice", none⟩],
   ⟨ApiCall.resp 200 [], ApiCall.resp 200 [], ApiCall.resp 200 ()⟩,
   ApiCall.resp 200 "my code is DISC-VFY-BBBB", 4⟩

/-- A concrete begin-link / confirm / reverify history for account `u2`. -/
def linkOps0 : List LinkOp :=
  [LinkOp.verifyOp "DISC-VFY-BBBB" "u2",
   LinkOp.confirmOp cenv0 "u2" "Alice",
   LinkOp.reverifyOp "DISC-VFY-CCCC" "u2"]

/-- Digit/letter lookalike characters a human-typeable code alphabet is
meant to exclude. -/
def ambiguousChars : List Char := ['0', 'O', '1', 'I']

/-- The choice sequence drawing the letter `O` (index 24) four times. -/
def pickO : Fin 4 → Fin 36 := fun _ => ⟨24, by decide⟩

/-- A confirmation environment whose user search returns only `Alice` and
whose profile response contains `u1`'s stored verification code. -/
def cenv9 : ConfirmEnv :=
  ⟨ApiCall.resp 200 [⟨7, "Alice", none⟩],
   ⟨ApiCall.resp 200 [], ApiCall.resp 200 [], ApiCall.resp 200 ()⟩,
   ApiCall.resp 200 "DISC-VFY-AAAA", 11⟩

/-! ## Helper lemmas -/

theorem psSet_self (ps : PStore) (d : String) (pid : Nat) (r : PRec) :
    psSet ps d pid r d pid = some r := by
  simp [psSet]

theorem psSet_other (ps : PStore) (d0 : String) (pid0 : Nat) (r : PRec)
    (d : String) (pid : Nat) (h : ¬(d = d0 ∧ pid = pid0)) :
    psSet ps d0 pid0 r d pid = ps d pid := by
  simp only [psSet, if_neg h]

theorem regSet_self (reg : Registry) (u : String) (r : VRec) :
    regSet reg u r u = some r := by
  simp [regSet]

theorem regSet_other (reg : Registry) (u0 u : String) (h : u ≠ u0) (r : VRec) :
    regSet reg u0 r u = reg u := by
  simp only [regSet, if_neg h]

theorem toDigitsCore_ne_nil_of_acc (base fuel n : Nat) (ds : List Char)
    (h : ds ≠ []) : Nat.toDigitsCore base fuel n ds ≠ [] := by
  induction fuel generalizing n ds with
  | zero => simpa [Nat.toDigitsCore] using h
  | succ fuel ih =>
    simp only [Nat.toDigitsCore]
    split
    · simp
    · exact ih _ _ (by simp)

theorem toDigits_ne_nil (base n : Nat) : Nat.toDigits base n ≠ [] := by
  unfold Nat.toDigits
  simp only [Nat.toDigitsCore]
  split
  · simp
  · exact toDigitsCore_ne_nil_of_acc _ _ _ _ (by simp)

theorem nat_repr_ne_empty (n : Nat) : Nat.repr n ≠ "" := by
  unfold Nat.repr
  intro h
  have h2 : Nat.toDigits 10 n = [] := by
    have := congrArg String.data h
    simpa [List.asString] using this
  exact toDigits_ne_nil 10 n h2

/-- A `psSet` write preserves the row seen at `(d, pid)` whenever the row
written cannot be that row. -/
theorem psSet_pres (ps : PStore) (d0 : String) (pid0 : Nat) (r : PRec)
    (d : String) (pid : Nat) (p : PRec) (hp : ps d pid = some p)
    (h : ps d0 pid0 = some p → False) :
    psSet ps d0 pid0 r d pid = some p := by
  by_cases hk : d = d0 ∧ pid = pid0
  · obtain ⟨rfl, rfl⟩ := hk
    exact absurd hp h
  · rw [psSet_other _ _ _ _ _ _ hk]
    exact hp

/-- A completed row can never be the one written by the guarded update
paths of `handle_buy`: the completed row survives a `/buy` call
unchanged. -/
theorem handle_buy_preserves_completed (env : BuyEnv) (reg : Registry)
    (ps : PStore) (u pn : String) (d : String) (pid : Nat) (p : PRec)
    (hp : ps d pid = some p) (hc : p.status = PStatus.completed) :
    (handle_buy env reg ps u pn).2 d pid = some p := by
  unfold handle_buy
  dsimp only
  repeat' split
  all_goals dsimp only
  all_goals try exact hp
  all_goals refine psSet_pres _ _ _ _ _ _ _ hp (fun hcontra => ?_)
  all_goals simp_all

/-- The completed row survives a `/redeem` call unchanged. -/
theorem handle_redeem_preserves_completed (env : BuyEnv) (reg : Registry)
    (ps : PStore) (u pn link : String) (d : String) (pid : Nat) (p : PRec)
    (hp : ps d pid = some p) (hc : p.status = PStatus.completed) :
    (handle_redeem env reg ps u pn link).2 d pid = some p := by
  unfold handle_redeem
  dsimp only
  repeat' split
  all_goals dsimp only
  all_goals try exact hp
  all_goals refine psSet_pres _ _ _ _ _ _ _ hp (fun hcontra => ?_)
  all_goals simp_all

/-- The completed row survives a reconciliation tick unchanged (the tick
only touches pending rows). -/
theorem purchaseTick_preserves_completed (catalog : List Product)
    (orc : String → String → OwnershipEnv) (now : Nat) (ps : PStore)
    (d : String) (pid : Nat) (p : PRec)
    (hp : ps d pid = some p) (hc : p.status = PStatus.completed) :
    purchaseTick catalog orc now ps d pid = some p := by
  unfold purchaseTick
  rw [hp]
  simp [hc]

/-- The completed row survives any single purchase operation unchanged. -/
theorem applyPurchaseOp_preserves_completed (ps : PStore) (op : PurchaseOp)
    (d : String) (pid : Nat) (p : PRec)
    (hp : ps d pid = some p) (hc : p.status = PStatus.completed) :
    applyPurchaseOp ps op d pid = some p := by
  cases op with
  | buyOp env reg u pn =>
    exact handle_buy_preserves_completed env reg ps u pn d pid p hp hc
  | redeemOp env reg u pn link =>
    exact handle_redeem_preserves_completed env reg ps u pn link d pid p hp hc
  | tickOp catalog orc now =>
    exact purchaseTick_preserves_completed catalog orc now ps d pid p hp hc

/-- C1. For every purchase intent whose state is Completed, no subsequent
invocation of `/buy` (`requestPurchase`), `/redeem`, or a
reconciliation-loop tick changes its row: once Completed, the intent is
never set back to Pending or Failed. -/
theorem c1_completed_terminal (ps : PStore) (ops : List PurchaseOp)
    (d : String) (pid : Nat) (p : PRec)
    (hp : ps d pid = some p) (hc : p.status = PStatus.completed) :
    applyPurchaseOps ps ops d pid = some p := by
  induction ops generalizing ps with
  | nil => exact hp
  | cons op rest ih =>
    exact ih (applyPurchaseOp ps op)
      (applyPurchaseOp_preserves_completed ps op d pid p hp hc)

/-- Witness for C1: a concrete completed intent survives a `/buy`, a
`/redeem` and a tick. -/
theorem c1_completed_terminal_witness :
    applyPurchaseOps psCompleted
      [PurchaseOp.buyOp envNotOwned reg0 "u1" "Gold",
       PurchaseOp.redeemOp envOwned reg0 "u1" "" "9001",
       PurchaseOp.tickOp [product0] (fun _ _ => oracleOwned) 9] "u1" 1 =
    some pCompleted :=
  c1_completed_terminal psCompleted _ "u1" 1 pCompleted (by decide) (by decide)

/-- Calling `handle_buy` on an existing non-completed intent with the
oracle reporting not-owned: the intent is reset to pending. -/
theorem handle_buy_not_owned_updates (env : BuyEnv) (reg : Registry)
    (ps : PStore) (u pn : String) (v : VRec) (product : Product) (p : PRec)
    (hreg : reg u = some v) (hver : v.verified = true)
    (hprod : get_product_by_name env.catalog pn = some product)
    (howned : user_owns_gamepass env.oracle product.gamepassId = false)
    (hp : ps u product.id = some p) (hnc : p.status ≠ PStatus.completed) :
    (handle_buy env reg ps u pn).2 =
      psSet ps u product.id
        (update_purchase_fields p { status := some PStatus.pending }) := by
  simp [handle_buy, hreg, hver, hprod, howned, hp, hnc]

/-- Calling `handle_buy` on an existing non-completed intent with the
oracle reporting owned: the intent is completed and stamped. -/
theorem handle_buy_owned_completes (env : BuyEnv) (reg : Registry)
    (ps : PStore) (u pn : String) (v : VRec) (product : Product) (p : PRec)
    (hreg : reg u = some v) (hver : v.verified = true)
    (hprod : get_product_by_name env.catalog pn = some product)
    (howned : user_owns_gamepass env.oracle product.gamepassId = true)
    (hp : ps u product.id = some p) (hnc : p.status ≠ PStatus.completed) :
    (handle_buy env reg ps u pn).2 =
      psSet ps u product.id
        (update_purchase_fields p
          { status := some PStatus.completed,
            purchasedAt := some (some env.now) }) := by
  simp [handle_buy, hreg, hver, hprod, howned, hp, hnc]

/-- Calling `handle_redeem` (with the product resolved by gamepass id) on an
existing non-completed intent with the oracle reporting owned: the intent
is completed and stamped. -/
theorem handle_redeem_completes (env : BuyEnv) (reg : Registry)
    (ps : PStore) (u link : String) (v : VRec) (product : Product) (p : PRec)
    (hreg : reg u = some v) (hver : v.verified = true)
    (hlink : extract_gamepass_id link = some product.gamepassId)
    (hcat : get_product_by_gamepass_id env.catalog product.gamepassId = some product)
    (howned : user_owns_gamepass env.oracle product.gamepassId = true)
    (hp : ps u product.id = some p) (hnc : p.status ≠ PStatus.completed) :
    (handle_redeem env reg ps u "" link).2 =
      psSet ps u product.id
        (update_purchase_fields p
          { status := some PStatus.completed,
            purchasedAt := some (some env.now) }) := by
  simp [handle_redeem, hreg, hver, hlink, hcat, howned, hp, hnc]

/-- Calling `handle_redeem` on an already-completed intent is a no-op on the
store. -/
theorem handle_redeem_short_circuit (env : BuyEnv) (reg : Registry)
    (ps : PStore) (u link : String) (v : VRec) (product : Product) (p : PRec)
    (hreg : reg u = some v) (hver : v.verified = true)
    (hlink : extract_gamepass_id link = some product.gamepassId)
    (hcat : get_product_by_gamepass_id env.catalog product.gamepassId = some product)
    (howned : user_owns_gamepass env.oracle product.gamepassId = true)
    (hp : ps u product.id = some p) (hcmp : p.status = PStatus.completed) :
    (handle_redeem env reg ps u "" link).2 = ps := by
  simp [handle_redeem, hreg, hver, hlink, hcat, howned, hp, hcmp]

/-- A tick leaves every non-pending row unchanged. -/
theorem purchaseTick_nonpending (catalog : List Product)
    (orc : String → String → OwnershipEnv) (now : Nat) (ps : PStore)
    (d : String) (pid : Nat) (p : PRec)
    (hp : ps d pid = some p) (hnp : p.status ≠ PStatus.pending) :
    purchaseTick catalog orc now ps d pid = some p := by
  unfold purchaseTick
  rw [hp]
  simp [hnp]

/-- A tick completes a pending row whose product exists and whose owner
is reported as owning the gamepass. -/
theorem purchaseTick_completes (catalog : List Product)
    (orc : String → String → OwnershipEnv) (now : Nat) (ps : PStore)
    (d : String) (pid : Nat) (p : PRec) (product : Product)
    (hp : ps d pid = some p) (hpend : p.status = PStatus.pending)
    (hprod : get_product catalog p.productId = some product)
    (howned : user_owns_gamepass (orc p.robloxId product.gamepassId)
      product.gamepassId = true) :
    purchaseTick catalog orc now ps d pid =
      some (update_purchase_fields p
        { status := some PStatus.completed, purchasedAt := some (some now) }) := by
  unfold purchaseTick
  rw [hp]
  simp [hpend, hprod, howned]

/-- C2 counterexample: the concrete Failed intent `pFailed` is moved back
to Pending by a `/buy` call whose oracle reports not-owned, so a Failed
intent is not terminal under `requestPurchase`. -/
theorem c2_counterexample :
    psFailed "u1" 1 = some pFailed ∧
    pFailed.status = PStatus.failed ∧
    (handle_buy envNotOwned reg0 psFailed "u1" "Gold").2 "u1" 1 =
      some ⟨"u1", "100", 1, PStatus.pending, none⟩ := by decide

/-- C2 amended: a Failed intent is terminal only for the reconciliation
loop (which scans pending rows only); `requestPurchase` moves it back to
Pending when the oracle reports not-owned and to Completed when it reports
owned, and `redeem` moves it to Completed when its checks pass. -/
theorem c2_failed_not_terminal (env : BuyEnv) (reg : Registry) (ps : PStore)
    (u pn link : String) (v : VRec) (product : Product) (p : PRec)
    (hreg : reg u = some v) (hver : v.verified = true)
    (hprod : get_product_by_name env.catalog pn = some product)
    (hp : ps u product.id = some p) (hf : p.status = PStatus.failed) :
    (user_owns_gamepass env.oracle product.gamepassId = false →
      (handle_buy env reg ps u pn).2 u product.id =
        some (update_purchase_fields p { status := some PStatus.pending })) ∧
    (user_owns_gamepass env.oracle product.gamepassId = true →
      (handle_buy env reg ps u pn).2 u product.id =
        some (update_purchase_fields p
          { status := some PStatus.completed,
            purchasedAt := some (some env.now) })) ∧
    (extract_gamepass_id link = some product.gamepassId →
      get_product_by_gamepass_id env.catalog product.gamepassId = some product →
      user_owns_gamepass env.oracle product.gamepassId = true →
      (handle_redeem env reg ps u "" link).2 u product.id =
        some (update_purchase_fields p
          { status := some PStatus.completed,
            purchasedAt := some (some env.now) })) ∧
    (∀ catalog orc now, purchaseTick catalog orc now ps u product.id = some p) := by
  have hnc : p.status ≠ PStatus.completed := by simp [hf]
  refine ⟨fun howned => ?_, fun howned => ?_, fun hlink hcat howned => ?_,
    fun catalog orc now => ?_⟩
  · rw [handle_buy_not_owned_updates env reg ps u pn v product p hreg hver hprod
      howned hp hnc]
    exact psSet_self _ _ _ _
  · rw [handle_buy_owned_completes env reg ps u pn v product p hreg hver hprod
      howned hp hnc]
    exact psSet_self _ _ _ _
  · rw [handle_redeem_completes env reg ps u link v product p hreg hver hlink
      hcat howned hp hnc]
    exact psSet_self _ _ _ _
  · exact purchaseTick_nonpending catalog orc now ps u product.id p hp (by simp [hf])

/-- Witness for the amended C2 at a concrete failed intent. -/
theorem c2_failed_not_terminal_witness :
    (user_owns_gamepass envNotOwned.oracle product0.gamepassId = false →
      (handle_buy envNotOwned reg0 psFailed "u1" "Gold").2 "u1" product0.id =
        some (update_purchase_fields pFailed { status := some PStatus.pending })) ∧
    (user_owns_gamepass envNotOwned.oracle product0.gamepassId = true →
      (handle_buy envNotOwned reg0 psFailed "u1" "Gold").2 "u1" product0.id =
        some (update_purchase_fields pFailed
          { status := some PStatus.completed,
            purchasedAt := some (some envNotOwned.now) })) ∧
    (extract_gamepass_id "9001" = some product0.gamepassId →
      get_product_by_gamepass_id envNotOwned.catalog product0.gamepassId =
        some product0 →
      user_owns_gamepass envNotOwned.oracle product0.gamepassId = true →
      (handle_redeem envNotOwned reg0 psFailed "u1" "" "9001").2 "u1" product0.id =
        some (update_purchase_fields pFailed
          { status := some PStatus.completed,
            purchasedAt := some (some envNotOwned.now) })) ∧
    (∀ catalog orc now,
      purchaseTick catalog orc now psFailed "u1" product0.id = some pFailed) :=
  c2_failed_not_terminal envNotOwned reg0 psFailed "u1" "Gold" "9001" vLinked
    product0 pFailed (by decide) (by decide) (by decide) (by decide) (by decide)

/-- When the ownership endpoint call raises (timeout, connection error),
`user_owns_gamepass` returns `False`. -/
theorem user_owns_gamepass_err (env : OwnershipEnv) (g : String)
    (h : env.ownershipCall = ApiCall.err) : user_owns_gamepass env g = false := by
  unfold user_owns_gamepass
  rw [h]

/-- C3. On a reconciliation tick, a Pending intent transitions to Failed
exactly when its product (entitlement definition) is missing; when the
product exists and the Oracle ownership call errors or times out, the
intent's row is unchanged — it remains Pending (neither Failed nor
Completed) and is picked up again by the next tick's pending scan. -/
theorem c3_tick_fails_only_missing_product (catalog : List Product)
    (orc : String → String → OwnershipEnv) (now : Nat) (ps : PStore)
    (d : String) (pid : Nat) (p : PRec)
    (hp : ps d pid = some p) (hpend : p.status = PStatus.pending) :
    ∃ p', purchaseTick catalog orc now ps d pid = some p' ∧
      (p'.status = PStatus.failed ↔ get_product catalog p.productId = none) ∧
      (∀ product, get_product catalog p.productId = some product →
        (orc p.robloxId product.gamepassId).ownershipCall = ApiCall.err →
        p' = p ∧ p'.status = PStatus.pending) := by
  unfold purchaseTick
  rw [hp]
  dsimp only
  rw [if_pos hpend]
  cases hprod : get_product catalog p.productId with
  | none =>
    refine ⟨_, rfl, ?_, ?_⟩
    · simp [update_purchase_fields]
    · intro product h
      simp at h
  | some product =>
    dsimp only
    by_cases howned : user_owns_gamepass (orc p.robloxId product.gamepassId)
        product.gamepassId = true
    · rw [if_pos howned]
      refine ⟨_, rfl, ?_, ?_⟩
      · simp [update_purchase_fields]
      · intro product' h herr
        cases h
        rw [user_owns_gamepass_err _ _ herr] at howned
        cases howned
    · rw [if_neg howned]
      refine ⟨p, rfl, ?_, fun _ _ _ => ⟨rfl, hpend⟩⟩
      simp [hpend]

/-- Witness for C3: a concrete pending intent whose oracle call raises is
left pending by the tick. -/
theorem c3_tick_fails_only_missing_product_witness :
    ∃ p', purchaseTick [product0] (fun _ _ => oracleErr) 7 psPending "u1" 1 =
        some p' ∧
      (p'.status = PStatus.failed ↔
        get_product [product0] pPending.productId = none) ∧
      (∀ product, get_product [product0] pPending.productId = some product →
        ((fun _ _ => oracleErr) pPending.robloxId product.gamepassId).ownershipCall =
          ApiCall.err →
        p' = pPending ∧ p'.status = PStatus.pending) :=
  c3_tick_fails_only_missing_product [product0] (fun _ _ => oracleErr) 7
    psPending "u1" 1 pPending (by decide) (by decide)

/-- C6 counterexample: with the concrete completed intent `pCompleted` and
an oracle that reports not-owned, `/buy` leaves the store untouched but
returns the purchase-link result (with a `gamepassLink` and the pending
message), not the completed "already own this" result the claim
promises regardless of the oracle. -/
theorem c6_counterexample :
    psCompleted "u1" 1 = some pCompleted ∧
    pCompleted.status = PStatus.completed ∧
    (handle_buy envNotOwned reg0 psCompleted "u1" "Gold").2 "u1" 1 =
      some pCompleted ∧
    (handle_buy envNotOwned reg0 psCompleted "u1" "Gold").1.data.gamepassLink =
      some "https://www.roblox.com/game-pass/9001" ∧
    (handle_buy envNotOwned reg0 psCompleted "u1" "Gold").1.message ≠
      msgAlreadyOwnProduct := by decide

/-- C6 amended: repeating `requestPurchase` on a Completed intent is a
no-op on the store regardless of the oracle, but the returned result does
depend on the oracle: the completed "already own this" result when the
oracle reports owned, and the purchase-link result when it reports
not-owned. -/
theorem c6_completed_noop (env : BuyEnv) (reg : Registry) (ps : PStore)
    (u pn : String) (v : VRec) (product : Product) (ep : PRec)
    (hreg : reg u = some v) (hver : v.verified = true)
    (hprod : get_product_by_name env.catalog pn = some product)
    (hp : ps u product.id = some ep) (hc : ep.status = PStatus.completed) :
    (handle_buy env reg ps u pn).2 = ps ∧
    (user_owns_gamepass env.oracle product.gamepassId = true →
      (handle_buy env reg ps u pn).1 =
        ⟨true, msgAlreadyOwnProduct, { product := some product }⟩) ∧
    (user_owns_gamepass env.oracle product.gamepassId = false →
      (handle_buy env reg ps u pn).1 =
        ⟨true, msgBuyPending product.name,
          { product := some product,
            gamepassLink :=
              some ("https://www.roblox.com/game-pass/" ++ product.gamepassId) }⟩) := by
  by_cases howned : user_owns_gamepass env.oracle product.gamepassId = true
  · refine ⟨?_, fun _ => ?_, fun hf => ?_⟩
    · simp [handle_buy, hreg, hver, hprod, hp, hc, howned]
    · simp [handle_buy, hreg, hver, hprod, hp, hc, howned]
    · rw [howned] at hf
      cases hf
  · have hf : user_owns_gamepass env.oracle product.gamepassId = false := by
      simpa using howned
    refine ⟨?_, fun ht => ?_, fun _ => ?_⟩
    · simp [handle_buy, hreg, hver, hprod, hp, hc, hf]
    · rw [ht] at hf
      cases hf
    · simp [handle_buy, hreg, hver, hprod, hp, hc, hf]

/-- Witness for the amended C6 at a concrete completed intent. -/
theorem c6_completed_noop_witness :
    (handle_buy envNotOwned reg0 psCompleted "u1" "Gold").2 = psCompleted ∧
    (user_owns_gamepass envNotOwned.oracle product0.gamepassId = true →
      (handle_buy envNotOwned reg0 psCompleted "u1" "Gold").1 =
        ⟨true, msgAlreadyOwnProduct, { product := some product0 }⟩) ∧
    (user_owns_gamepass envNotOwned.oracle product0.gamepassId = false →
      (handle_buy envNotOwned reg0 psCompleted "u1" "Gold").1 =
        ⟨true, msgBuyPending product0.name,
          { product := some product0,
            gamepassLink :=
              some ("https://www.roblox.com/game-pass/" ++ product0.gamepassId) }⟩) :=
  c6_completed_noop envNotOwned reg0 psCompleted "u1" "Gold" vLinked product0
    pCompleted (by decide) (by decide) (by decide) (by decide) (by decide)

/-- Any user returned by `get_user_by_username` has a non-empty name,
provided every name in the search response is non-empty. -/
theorem get_user_by_username_name_ne (call : ApiCall (List RawUser))
    (username : String) (ru : RUser) (hok : searchNamesNonempty call)
    (h : get_user_by_username call username = some ru) : ru.name ≠ "" := by
  cases call with
  | err => simp [get_user_by_username] at h
  | resp status data =>
    simp only [searchNamesNonempty] at hok
    simp only [get_user_by_username] at h
    split at h
    · split at h
      · split at h
        · rename_i u hfind
          cases h
          have hu : u ∈ data := List.mem_of_find?_eq_some hfind
          simpa [toRUser] using hok u hu
        · cases data with
          | nil => simp at h
          | cons a t =>
            simp only [List.head?, Option.map] at h
            cases h
            simpa [toRUser] using hok a (List.mem_cons_self a t)
      · cases h
    · cases h

/-- The operation `handle_verify` preserves the LinkedAccount invariant. -/
theorem handle_verify_preserves_linkInv (code : String) (reg : Registry)
    (userId : String) (hinv : linkInv reg) :
    linkInv (handle_verify code reg userId).2 := by
  unfold handle_verify
  split
  · rename_i existing hE
    split
    · exact hinv
    · rename_i hver
      intro u r hr
      dsimp only at hr
      by_cases hu : u = userId
      · subst hu
        rw [regSet_self] at hr
        cases hr
        have h0 := hinv u existing hE
        have hrid : existing.robloxId = "" := by
          by_contra hne
          have hcontra := (h0.1).mp hne
          simp [hcontra] at hver
        have hrun : existing.robloxUsername = "" := by
          by_contra hne
          have hcontra := (h0.2).mp hne
          simp [hcontra] at hver
        simp [update_verified_user_fields, hrid, hrun]
      · rw [regSet_other _ _ _ hu] at hr
        exact hinv u r hr
  · intro u r hr
    dsimp only at hr
    by_cases hu : u = userId
    · subst hu
      rw [regSet_self] at hr
      cases hr
      simp
    · rw [regSet_other _ _ _ hu] at hr
      exact hinv u r hr

/-- The operation `confirm_verification` preserves the invariant when the
search response contains no empty usernames. -/
theorem confirm_preserves_linkInv (env : ConfirmEnv) (reg : Registry)
    (userId claim : String) (hok : searchNamesNonempty env.searchCall)
    (hinv : linkInv reg) :
    linkInv (confirm_verification env reg userId claim).2 := by
  unfold confirm_verification
  split
  · exact hinv
  · rename_i verification hE
    split
    · exact hinv
    · rename_i ru hru
      split
      · exact hinv
      · split
        · exact hinv
        · intro u r hr
          dsimp only at hr
          by_cases hu : u = userId
          · subst hu
            rw [regSet_self] at hr
            cases hr
            have hname : ru.name ≠ "" :=
              get_user_by_username_name_ne _ claim ru hok hru
            simp [update_verified_user_fields, hname, nat_repr_ne_empty]
          · rw [regSet_other _ _ _ hu] at hr
            exact hinv u r hr

/-- The operation `handle_reverify` preserves the LinkedAccount invariant. -/
theorem handle_reverify_preserves_linkInv (code : String) (reg : Registry)
    (userId : String) (hinv : linkInv reg) :
    linkInv (handle_reverify code reg userId).2 := by
  unfold handle_reverify
  split
  · exact handle_verify_preserves_linkInv code reg userId hinv
  · intro u r hr
    dsimp only at hr
    by_cases hu : u = userId
    · subst hu
      rw [regSet_self] at hr
      cases hr
      simp [update_verified_user_fields]
    · rw [regSet_other _ _ _ hu] at hr
      exact hinv u r hr

/-- Every single linking operation preserves the invariant. -/
theorem applyLinkOp_preserves_linkInv (reg : Registry) (op : LinkOp)
    (hok : linkOpOk op) (hinv : linkInv reg) : linkInv (applyLinkOp reg op) := by
  cases op with
  | verifyOp code userId =>
    exact handle_verify_preserves_linkInv code reg userId hinv
  | confirmOp env userId claim =>
    exact confirm_preserves_linkInv env reg userId claim hok hinv
  | reverifyOp code userId =>
    exact handle_reverify_preserves_linkInv code reg userId hinv

/-- Folding linking operations over an invariant-satisfying registry keeps
the invariant. -/
theorem foldl_linkInv (ops : List LinkOp) :
    ∀ reg, linkInv reg → (∀ op ∈ ops, linkOpOk op) →
      linkInv (ops.foldl applyLinkOp reg) := by
  induction ops with
  | nil => intro reg h _; exact h
  | cons op rest ih =>
    intro reg h hok
    simp only [List.foldl]
    exact ih _ (applyLinkOp_preserves_linkInv reg op (hok op (by simp)) h)
      (fun o ho => hok o (by simp [ho]))

/-- C5. In every registry reachable by any sequence of `beginLink`
(`handle_verify`), `confirmLink` (`confirm_verification`) and `reverify`
(`handle_reverify`) operations from the empty registry, each account
row's Roblox id and username are non-empty exactly when the row is
verified (Linked) — assuming the Roblox search responses never report an
empty username. -/
theorem c5_link_invariant (ops : List LinkOp)
    (hok : ∀ op ∈ ops, linkOpOk op) : linkInv (runLinkOps ops) := by
  unfold runLinkOps
  exact foldl_linkInv ops (fun _ => none) (fun u r hr => by cases hr) hok


/-- Witness for C5 on the concrete history `linkOps0`. -/
theorem c5_link_invariant_witness : linkInv (runLinkOps linkOps0) :=
  c5_link_invariant linkOps0 (by
    intro op hop
    simp only [linkOps0, List.mem_cons, List.not_mem_nil, or_false] at hop
    rcases hop with rfl | rfl | rfl
    · trivial
    · intro u hu
      simp only [cenv0, List.mem_singleton] at hu
      subst hu
      decide
    · trivial)

/-- The concrete registry `reg0` satisfies the LinkedAccount invariant. -/
theorem linkInv_reg0 : linkInv reg0 := by
  intro u r hr
  simp only [reg0] at hr
  by_cases hu : u = "u1"
  · subst hu
    rw [regSet_self] at hr
    cases hr
    decide
  · rw [regSet_other _ _ _ hu] at hr
    cases hr

/-- C4. `beginLink` (`handle_verify`) fails with the already-linked error
when the account is verified (Linked), leaving the registry untouched;
otherwise (no row, or an unverified row) it succeeds, stores the fresh
code with `verified = False` and an empty Roblox identity, and returns the
code. (The linked-account invariant supplies that a pre-existing
unverified row carries no confirmed identity to clear.) -/
theorem c4_beginLink (code : String) (reg : Registry) (userId : String)
    (hinv : linkInv reg) :
    (∀ r, reg userId = some r → r.verified = true →
      (handle_verify code reg userId).1 = ⟨false, msgAlreadyVerified, {}⟩ ∧
      (handle_verify code reg userId).2 = reg) ∧
    ((reg userId = none ∨ ∃ r, reg userId = some r ∧ r.verified = false) →
      (handle_verify code reg userId).1.success = true ∧
      (handle_verify code reg userId).1.data.code = some code ∧
      (∃ r', (handle_verify code reg userId).2 userId = some r' ∧
        r'.verified = false ∧ r'.verificationCode = code ∧
        r'.robloxUsername = "" ∧ r'.robloxId = "")) := by
  constructor
  · intro r hr hv
    constructor <;> simp [handle_verify, hr, hv]
  · intro h
    rcases h with h | ⟨r, hr, hv⟩
    · refine ⟨?_, ?_, ⟨userId, "", "", code, false, none⟩, ?_, rfl, rfl, rfl, rfl⟩ <;>
        simp [handle_verify, h, regSet_self]
    · have hrid : r.robloxId = "" := by
        by_contra hne
        have hcontra := ((hinv userId r hr).1).mp hne
        rw [hcontra] at hv
        cases hv
      have hrun : r.robloxUsername = "" := by
        by_contra hne
        have hcontra := ((hinv userId r hr).2).mp hne
        rw [hcontra] at hv
        cases hv
      refine ⟨?_, ?_, update_verified_user_fields r
          { verificationCode := some code, verified := some false,
            verifiedAt := some none }, ?_, ?_, ?_, ?_, ?_⟩ <;>
        simp [handle_verify, hr, hv, regSet_self, update_verified_user_fields,
          hrid, hrun]

/-- Witness for C4: on the concrete registry `reg0`, the already-verified
account `u1` is rejected, and the fresh account `u9` gets a new
pending-confirmation row. -/
theorem c4_beginLink_witness :
    (∀ r, reg0 "u9" = some r → r.verified = true →
      (handle_verify "DISC-VFY-DDDD" reg0 "u9").1 =
        ⟨false, msgAlreadyVerified, {}⟩ ∧
      (handle_verify "DISC-VFY-DDDD" reg0 "u9").2 = reg0) ∧
    ((reg0 "u9" = none ∨ ∃ r, reg0 "u9" = some r ∧ r.verified = false) →
      (handle_verify "DISC-VFY-DDDD" reg0 "u9").1.success = true ∧
      (handle_verify "DISC-VFY-DDDD" reg0 "u9").1.data.code =
        some "DISC-VFY-DDDD" ∧
      (∃ r', (handle_verify "DISC-VFY-DDDD" reg0 "u9").2 "u9" = some r' ∧
        r'.verified = false ∧ r'.verificationCode = "DISC-VFY-DDDD" ∧
        r'.robloxUsername = "" ∧ r'.robloxId = "")) :=
  c4_beginLink "DISC-VFY-DDDD" reg0 "u9" linkInv_reg0

/-- C10. `reverify` (`handle_reverify`) on an account with no existing
row does not fail: it is literally `handle_verify` on that account,
creating a fresh pending-confirmation row and returning the new code. -/
theorem c10_reverify_no_record (code : String) (reg : Registry)
    (userId : String) (h : reg userId = none) :
    handle_reverify code reg userId = handle_verify code reg userId ∧
    (handle_reverify code reg userId).1.success = true ∧
    (handle_reverify code reg userId).1.data.code = some code ∧
    (handle_reverify code reg userId).2 userId =
      some ⟨userId, "", "", code, false, none⟩ := by
  have h1 : handle_reverify code reg userId = handle_verify code reg userId := by
    unfold handle_reverify
    rw [h]
  refine ⟨h1, ?_, ?_, ?_⟩ <;> rw [h1] <;> simp [handle_verify, h, regSet_self]

/-- Witness for C10 on the empty registry. -/
theorem c10_reverify_no_record_witness :
    handle_reverify "DISC-VFY-EEEE" (fun _ => none) "u3" =
      handle_verify "DISC-VFY-EEEE" (fun _ => none) "u3" ∧
    (handle_reverify "DISC-VFY-EEEE" (fun _ => none) "u3").1.success = true ∧
    (handle_reverify "DISC-VFY-EEEE" (fun _ => none) "u3").1.data.code =
      some "DISC-VFY-EEEE" ∧
    (handle_reverify "DISC-VFY-EEEE" (fun _ => none) "u3").2 "u3" =
      some ⟨"u3", "", "", "DISC-VFY-EEEE", false, none⟩ :=
  c10_reverify_no_record "DISC-VFY-EEEE" (fun _ => none) "u3" rfl


/-- C7 counterexample: the generator's alphabet is the full set of digits
and uppercase letters, so the draw `pickO` produces `DISC-VFY-OOOO`, whose
suffix consists of the visually ambiguous letter `O`; the claim that the
suffix alphabet excludes visually ambiguous characters is false. -/
theorem c7_counterexample :
    generate_verification_code pickO = "DISC-VFY-OOOO" ∧
    ¬ (∀ pick : Fin 4 → Fin 36,
        ∀ c ∈ (generate_verification_code pick).toList.drop 9,
          c ∉ ambiguousChars) := by
  constructor
  · decide
  · intro h
    exact h pickO 'O' (by decide) (by decide)

/-- C7 amended: every generated token is the fixed head `DISC-VFY-`
followed by exactly four characters drawn from the restricted alphabet of
the ten digits and twenty-six uppercase letters — an alphabet that does
not exclude the visually ambiguous characters `0`/`O` and `1`/`I`. -/
theorem c7_token_format (pick : Fin 4 → Fin 36) :
    ∃ s : String, generate_verification_code pick = "DISC-VFY-" ++ s ∧
      s.length = 4 ∧
      s.toList.all (fun c => decide (c ∈ verificationAlphabet)) = true := by
  refine ⟨String.mk ((List.finRange 4).map
    (fun i => verificationAlphabet.get (Fin.cast (by decide) (pick i)))),
    rfl, ?_, ?_⟩
  · simp [String.length]
  · simp only [List.all_eq_true, decide_eq_true_eq]
    intro c hc
    simp only [String.toList, List.mem_map] at hc
    obtain ⟨i, _, rfl⟩ := hc
    exact List.get_mem _ _ _

/-- Witness for the amended C7 at the concrete draw `pickO`. -/
theorem c7_token_format_witness :
    ∃ s : String, generate_verification_code pickO = "DISC-VFY-" ++ s ∧
      s.length = 4 ∧
      s.toList.all (fun c => decide (c ∈ verificationAlphabet)) = true :=
  c7_token_format pickO

/-- C8 counterexample: on the concrete pending intent `pPending` with the
oracle reporting owned for both actors, the schedule in which the
`/redeem` call commits before the loop's snapshot completes the intent
with zero Grant Notifier invocations — not the exactly-one invocation the
claim promises (`handle_redeem` contains no grant call, and the loop no
longer sees the intent as pending). -/
theorem c8_counterexample :
    psPending "u1" 1 = some pPending ∧
    pPending.status = PStatus.pending ∧
    user_owns_gamepass envOwned.oracle product0.gamepassId = true ∧
    (runRace envOwned (fun _ _ => oracleOwned) reg0 "u1" "" "9001" "u1" 1
      [RaceStep.redeemStep, RaceStep.tickStep] psPending).2 = 0 ∧
    (runRace envOwned (fun _ _ => oracleOwned) reg0 "u1" "" "9001" "u1" 1
      [RaceStep.redeemStep, RaceStep.tickStep] psPending).1 "u1" 1 =
      some ⟨"u1", "100", 1, PStatus.completed, some 5⟩ := by decide

/-- C8 amended: `Storage.update_purchase` applies the status write
unconditionally (no compare-and-set on the observed prior state), and the
Grant Notifier fires only when the loop performs the transition: when
`redeem` and the loop both target the same Pending intent, either order
produces exactly one Completed transition, but the notifier fires once if
the loop's tick commits first and zero times if the `redeem` call commits
first. -/
theorem c8_race_grants (env : BuyEnv) (orc : String → String → OwnershipEnv)
    (reg : Registry) (u link : String) (v : VRec) (product : Product)
    (p : PRec) (ps : PStore)
    (hreg : reg u = some v) (hver : v.verified = true)
    (hlink : extract_gamepass_id link = some product.gamepassId)
    (hcat : get_product_by_gamepass_id env.catalog product.gamepassId =
      some product)
    (hcatId : get_product env.catalog p.productId = some product)
    (hp : ps u product.id = some p) (hpend : p.status = PStatus.pending)
    (hor : user_owns_gamepass env.oracle product.gamepassId = true)
    (hot : user_owns_gamepass (orc p.robloxId product.gamepassId)
      product.gamepassId = true) :
    (∀ q s, (update_purchase_fields q { status := some s }).status = s) ∧
    ((runRace env orc reg u "" link u product.id
        [RaceStep.redeemStep, RaceStep.tickStep] ps).2 = 0 ∧
      ∃ q, (runRace env orc reg u "" link u product.id
          [RaceStep.redeemStep, RaceStep.tickStep] ps).1 u product.id =
        some q ∧ q.status = PStatus.completed) ∧
    ((runRace env orc reg u "" link u product.id
        [RaceStep.tickStep, RaceStep.redeemStep] ps).2 = 1 ∧
      ∃ q, (runRace env orc reg u "" link u product.id
          [RaceStep.tickStep, RaceStep.redeemStep] ps).1 u product.id =
        some q ∧ q.status = PStatus.completed) := by
  have hnc : p.status ≠ PStatus.completed := by simp [hpend]
  have hred : (handle_redeem env reg ps u "" link).2 =
      psSet ps u product.id
        (update_purchase_fields p
          { status := some PStatus.completed,
            purchasedAt := some (some env.now) }) :=
    handle_redeem_completes env reg ps u link v product p hreg hver hlink hcat
      hor hp hnc
  have hg0 : tickGrantFor env.catalog orc
      (psSet ps u product.id
        (update_purchase_fields p
          { status := some PStatus.completed,
            purchasedAt := some (some env.now) })) u product.id = 0 := by
    unfold tickGrantFor
    rw [psSet_self]
    simp [update_purchase_fields]
  have hfinA : purchaseTick env.catalog orc env.now
      (psSet ps u product.id
        (update_purchase_fields p
          { status := some PStatus.completed,
            purchasedAt := some (some env.now) })) u product.id =
      some (update_purchase_fields p
        { status := some PStatus.completed,
          purchasedAt := some (some env.now) }) :=
    purchaseTick_nonpending _ _ _ _ _ _ _ (psSet_self _ _ _ _)
      (by simp [update_purchase_fields])
  have htick : purchaseTick env.catalog orc env.now ps u product.id =
      some (update_purchase_fields p
        { status := some PStatus.completed,
          purchasedAt := some (some env.now) }) :=
    purchaseTick_completes env.catalog orc env.now ps u product.id p product
      hp hpend hcatId hot
  have hsc : (handle_redeem env reg (purchaseTick env.catalog orc env.now ps)
      u "" link).2 = purchaseTick env.catalog orc env.now ps :=
    handle_redeem_short_circuit env reg _ u link v product _ hreg hver hlink
      hcat hor htick (by simp [update_purchase_fields])
  have hg1 : tickGrantFor env.catalog orc ps u product.id = 1 := by
    unfold tickGrantFor
    rw [hp]
    simp [hpend, hcatId, hot]
  refine ⟨fun q s => rfl, ⟨?_, ?_⟩, ⟨?_, ?_⟩⟩
  · simp [runRace, hred, hg0]
  · refine ⟨update_purchase_fields p
      { status := some PStatus.completed,
        purchasedAt := some (some env.now) }, ?_, by simp [update_purchase_fields]⟩
    simp only [runRace, hred]
    exact hfinA
  · simp [runRace, hg1]
  · refine ⟨update_purchase_fields p
      { status := some PStatus.completed,
        purchasedAt := some (some env.now) }, ?_, by simp [update_purchase_fields]⟩
    simp only [runRace, hsc]
    exact htick

/-- Witness for the amended C8 at the concrete pending intent. -/
theorem c8_race_grants_witness :
    (∀ q s, (update_purchase_fields q { status := some s }).status = s) ∧
    ((runRace envOwned (fun _ _ => oracleOwned) reg0 "u1" "" "9001" "u1"
        product0.id [RaceStep.redeemStep, RaceStep.tickStep] psPending).2 = 0 ∧
      ∃ q, (runRace envOwned (fun _ _ => oracleOwned) reg0 "u1" "" "9001" "u1"
          product0.id [RaceStep.redeemStep, RaceStep.tickStep] psPending).1 "u1"
        product0.id = some q ∧ q.status = PStatus.completed) ∧
    ((runRace envOwned (fun _ _ => oracleOwned) reg0 "u1" "" "9001" "u1"
        product0.id [RaceStep.tickStep, RaceStep.redeemStep] psPending).2 = 1 ∧
      ∃ q, (runRace envOwned (fun _ _ => oracleOwned) reg0 "u1" "" "9001" "u1"
          product0.id [RaceStep.tickStep, RaceStep.redeemStep] psPending).1 "u1"
        product0.id = some q ∧ q.status = PStatus.completed) :=
  c8_race_grants envOwned (fun _ _ => oracleOwned) reg0 "u1" "9001" vLinked
    product0 pPending psPending (by decide) (by decide) (by decide) (by decide)
    (by decide) (by decide) (by decide) (by decide) (by decide)

/-- C9. When the user-search response is non-empty but contains no entry
whose name matches the claim case-insensitively, `get_user_by_username`
returns the first search result, and a successful `confirm_verification`
consequently links the account to that first result — an external identity
whose name differs from the claimed name. -/
theorem c9_first_result_fallback (data : List RawUser) (claim : String)
    (hne : data ≠ [])
    (hnomatch : ∀ u ∈ data, strLower u.name ≠ strLower claim)
    (env : ConfirmEnv) (hsearch : env.searchCall = ApiCall.resp 200 data)
    (hpub : is_inventory_public env.inv = true)
    (reg : Registry) (userId : String) (v : VRec)
    (hreg : reg userId = some v)
    (hcode : check_profile_for_code env.profileCall v.verificationCode = true) :
    ∃ first, data.head? = some first ∧
      get_user_by_username env.searchCall claim = some (toRUser first) ∧
      ∃ r', (confirm_verification env reg userId claim).2 userId = some r' ∧
        r'.verified = true ∧ r'.robloxUsername = first.name ∧
        r'.robloxUsername ≠ claim := by
  cases data with
  | nil => exact absurd rfl hne
  | cons a t =>
    have hfind : (a :: t).find?
        (fun u => strLower u.name == strLower claim) = none := by
      rw [List.find?_eq_none]
      intro x hx
      simpa using hnomatch x hx
    have hget : get_user_by_username env.searchCall claim = some (toRUser a) := by
      simp [get_user_by_username, hsearch, hfind]
    refine ⟨a, rfl, hget, ?_⟩
    have hname : a.name ≠ claim := by
      intro hEq
      exact hnomatch a (List.mem_cons_self a t) (by rw [hEq])
    refine ⟨update_verified_user_fields v
      { robloxUsername := some (toRUser a).name,
        robloxId := some (Nat.repr (toRUser a).id),
        verified := some true, verifiedAt := some (some env.now) }, ?_, ?_, ?_, ?_⟩
    · simp [confirm_verification, hreg, hget, hpub, hcode, regSet_self]
    · simp [update_verified_user_fields]
    · simp [update_verified_user_fields, toRUser]
    · simpa [update_verified_user_fields, toRUser] using hname


/-- Witness for C9: searching for `Bob` over a response containing only
`Alice` links the account to `Alice`. -/
theorem c9_first_result_fallback_witness :
    ∃ first, [(⟨7, "Alice", none⟩ : RawUser)].head? = some first ∧
      get_user_by_username cenv9.searchCall "Bob" = some (toRUser first) ∧
      ∃ r', (confirm_verification cenv9 reg0 "u1" "Bob").2 "u1" = some r' ∧
        r'.verified = true ∧ r'.robloxUsername = first.name ∧
        r'.robloxUsername ≠ "Bob" :=
  c9_first_result_fallback [⟨7, "Alice", none⟩] "Bob" (by decide)
    (by intro u hu; simp at hu; subst hu; decide) cenv9 rfl (by decide)
    reg0 "u1" vLinked (by decide) (by decide)

end BloxHub
